import Mathlib

/-!
Verification of the storage-provider abstraction layer (kanister):
a shallow embedding of the EBS (`pkg/blockstorage/awsebs/awsebs.go`) and
EFS (`pkg/blockstorage/awsefs/awsefs.go`) backends, with theorems about
snapshot copy, delete idempotence, volume creation, tag filtering,
the static region table and mount-target tag decoding.
-/

namespace Kanister

/-- A single tag; `blockstorage.KeyValue` (key and value strings). -/
structure KeyValue where
  key : String
  value : String
deriving DecidableEq, Repr

/-- `blockstorage.Volume`.  Storage `type_` models `blockstorage.Type`
("EBS" / "EFS"); sizes, IOPS and timestamps are modelled as `Int`
(Go `int64` values stay far below 2^63 here, so no wraparound arises). -/
structure Volume where
  type_ : String
  id : String
  az : String
  encrypted : Bool
  volumeType : String
  size : Int
  tags : List KeyValue
  iops : Int
  creationTime : Int
deriving DecidableEq, Repr

/-- The zero `blockstorage.Volume` (all fields at their Go zero values). -/
def Volume.zero : Volume :=
  { type_ := "", id := "", az := "", encrypted := false, volumeType := ""
    size := 0, tags := [], iops := 0, creationTime := 0 }

/-- `blockstorage.Snapshot`.  `volume` is a pointer in Go, hence `Option`. -/
structure Snapshot where
  id : String
  tags : List KeyValue
  type_ : String
  encrypted : Bool
  size : Int
  region : String
  volume : Option Volume
  creationTime : Int
deriving DecidableEq, Repr

/-- `aws.StringValue`: dereference an optional string, `""` when nil. -/
def awsStringValue (o : Option String) : String := o.getD ""

/-- `aws.BoolValue`: dereference an optional bool, `false` when nil. -/
def awsBoolValue (o : Option Bool) : Bool := o.getD false

/-- `aws.Int64Value`: dereference an optional int64, `0` when nil. -/
def awsInt64Value (o : Option Int) : Int := o.getD 0

/-- `aws.TimeValue`: dereference an optional timestamp, zero time when nil. -/
def awsTimeValue (o : Option Int) : Int := o.getD 0

/-- An `ec2.Tag` whose `Key`/`Value` pointers are set (the parser
dereferences them unconditionally, so nil tags are outside the model). -/
structure EC2Tag where
  key : String
  value : String
deriving DecidableEq, Repr

/-- The fields of `ec2.Snapshot` read by this layer; every pointer field
is an `Option`. -/
structure EC2Snapshot where
  snapshotId : Option String
  volumeId : Option String
  encrypted : Option Bool
  volumeSize : Option Int
  startTime : Option Int
  state : Option String
  tags : List EC2Tag
deriving DecidableEq, Repr

/-- The fields of `ec2.Volume` read by this layer. -/
structure EC2Volume where
  volumeId : Option String
  availabilityZone : Option String
  encrypted : Option Bool
  volumeType : Option String
  size : Option Int
  iops : Option Int
  createTime : Option Int
  state : Option String
  tags : List EC2Tag
deriving DecidableEq, Repr

/-- `ebsStorage.snapshotParse` (awsebs.go lines 181-201): builds a
`blockstorage.Snapshot` from an `ec2.Snapshot`.  `cliRegion` is the region
of the EC2 client's config (`s.ec2Cli.Config.Region`).  The volume is a
fresh `blockstorage.Volume` holding only the type and the (placeholder)
volume ID reported by the backend. -/
def snapshotParse (cliRegion : String) (snap : EC2Snapshot) : Snapshot :=
  { id := awsStringValue snap.snapshotId
    tags := snap.tags.map (fun t => { key := t.key, value := t.value })
    type_ := "EBS"
    encrypted := awsBoolValue snap.encrypted
    size := awsInt64Value snap.volumeSize
    region := cliRegion
    volume := some { Volume.zero with type_ := "EBS", id := awsStringValue snap.volumeId }
    creationTime := awsTimeValue snap.startTime }

/-- `ebsStorage.volumeParse` (awsebs.go lines 142-159). -/
def volumeParse (volume : EC2Volume) : Volume :=
  { type_ := "EBS"
    id := awsStringValue volume.volumeId
    az := awsStringValue volume.availabilityZone
    encrypted := awsBoolValue volume.encrypted
    volumeType := awsStringValue volume.volumeType
    size := awsInt64Value volume.size
    tags := volume.tags.map (fun t => { key := t.key, value := t.value })
    iops := awsInt64Value volume.iops
    creationTime := awsTimeValue volume.createTime }

/-- A presigned copy-request URL.  The cryptographic URL text is opaque;
the model records what determines it: the region the issuing client is
bound to, the request parameters, and the validity period in minutes
(awsebs.go lines 240-255: `fromCli.CopySnapshotRequest(&si)` and
`rq.Presign(120 * time.Minute)`). -/
structure PresignedURL where
  clientRegion : String
  sourceSnapshotId : String
  sourceRegion : String
  destinationRegion : String
  validMinutes : Nat
deriving DecidableEq, Repr

/-- The fields of `ec2.CopySnapshotInput` set by `SnapshotCopy`
(awsebs.go lines 269-276). -/
structure CopySnapshotInput where
  description : Option String
  sourceSnapshotId : Option String
  sourceRegion : Option String
  destinationRegion : Option String
  encrypted : Option Bool
  presignedUrl : Option PresignedURL
deriving DecidableEq, Repr

/-- `ebsStorage.SnapshotCopy` (awsebs.go lines 225-300).  Backend effects
are passed in: `fetched` is the single `ec2.Snapshot` returned by
`getSnapshots` for the new snapshot ID after the copy completed.  The
result pairs the `CopySnapshotInput` sent to the destination-region
client with the returned `blockstorage.Snapshot`.  Order of operations as
in the source: validate destination region and empty destination ID,
presign only when the regions differ, leave `Encrypted` unset unless the
source is encrypted, then overwrite the parsed result's Volume/Region/Size
from the source snapshot and the destination region (`*rs.Volume =
*from.Volume` dereferences the source's volume pointer, so a nil source
volume is a runtime panic, modelled as an error). -/
def ebsSnapshotCopy (fromSnap toSnap : Snapshot) (fetched : EC2Snapshot) :
    Except String (CopySnapshotInput × Snapshot) :=
  if toSnap.region = "" then
    .error "Destination snapshot AvailabilityZone must be specified"
  else if toSnap.id ≠ "" then
    .error "Snapshot destination ID must be empty"
  else
    let presignedURL : Option PresignedURL :=
      if toSnap.region ≠ fromSnap.region then
        some { clientRegion := fromSnap.region
               sourceSnapshotId := fromSnap.id
               sourceRegion := fromSnap.region
               destinationRegion := toSnap.region
               validMinutes := 120 }
      else none
    let csi : CopySnapshotInput :=
      { description := some ("Copy of " ++ fromSnap.id)
        sourceSnapshotId := some fromSnap.id
        sourceRegion := some fromSnap.region
        destinationRegion := some toSnap.region
        encrypted := if fromSnap.encrypted then some fromSnap.encrypted else none
        presignedUrl := presignedURL }
    match fromSnap.volume with
    | none => .error "panic: nil pointer dereference of source snapshot volume"
    | some v =>
      let rs := snapshotParse toSnap.region fetched
      .ok (csi, { rs with volume := some v, region := toSnap.region, size := fromSnap.size })

/-- The EC2 SDK constant `ec2.VolumeTypeIo1`. -/
def volumeTypeIo1 : String := "io1"

/-- The fields of `ec2.CreateVolumeInput` set by `VolumeCreate` /
`VolumeCreateFromSnapshot` (awsebs.go lines 95-104). -/
structure CreateVolumeInput where
  availabilityZone : Option String
  volumeType : Option String
  encrypted : Option Bool
  size : Option Int
  iops : Option Int
  snapshotId : Option String
deriving DecidableEq, Repr

/-- The request built by `ebsStorage.VolumeCreate` (awsebs.go lines
95-104): IOPS is put on the request only when the volume type is `io1`
("io1 type *requires* IOPS. Others *cannot* specify them."); an IOPS
value carried by the input for any other volume type is simply not
forwarded. -/
def ebsCreateVolumeInput (volume : Volume) : CreateVolumeInput :=
  { availabilityZone := some volume.az
    volumeType := some volume.volumeType
    encrypted := some volume.encrypted
    size := some volume.size
    iops := if volume.volumeType = volumeTypeIo1 then some volume.iops else none
    snapshotId := none }

/-- `ebsStorage.VolumeGet` (awsebs.go lines 119-140): `dvoVolumes` is the
`Volumes` field of the describe response for the single requested ID.
The source checks `len(dvo.Volumes) != len(volIDs)` (with one requested
ID), then the zero and more-than-one cases, and parses the single
volume. -/
def ebsVolumeGet (dvoVolumes : List EC2Volume) : Except String Volume :=
  if dvoVolumes.length ≠ 1 then .error "Object not found"
  else
    match dvoVolumes with
    | [] => .error "Volume not found"
    | v :: rest =>
      if rest.length > 0 then .error "Found an unexpected number of volumes"
      else .ok (volumeParse v)

/-- `ebsStorage.VolumeCreate` (awsebs.go lines 94-117) after the request
of `ebsCreateVolumeInput` is built: `createVolume` either fails with a
backend error or yields the new volume ID (`createResult`), and the call
finishes by `VolumeGet` on the describe response `dvoVolumes`.  No
validation is performed on the input volume anywhere on this path. -/
def ebsVolumeCreate (volume : Volume) (createResult : Except String String)
    (dvoVolumes : List EC2Volume) : Except String Volume :=
  match ebsCreateVolumeInput volume, createResult with
  | _, .error e => .error e
  | _, .ok _ => ebsVolumeGet dvoVolumes

/-- An error returned by an AWS API call, identified by its code. -/
structure AwsError where
  code : String
deriving DecidableEq, Repr

/-- Modelled from the spec: the error classifier `isSnapNotFoundErr`
lives in a file of this repository outside src/; per the spec a delete
treats a backend "resource not found" response as success.  Modelled as
the EBS snapshot-not-found error code. -/
def isSnapNotFoundErr (e : Option AwsError) : Bool :=
  match e with
  | some err => err.code = "InvalidSnapshot.NotFound"
  | none => false

/-- Modelled from the spec: the error classifier `isVolNotFoundErr`
lives outside src/; modelled as the EBS volume-not-found error code. -/
def isVolNotFoundErr (e : Option AwsError) : Bool :=
  match e with
  | some err => err.code = "InvalidVolume.NotFound"
  | none => false

/-- Modelled from the spec: the error classifier `isDryRunErr` lives
outside src/; a dry-run request that would have succeeded comes back
with the `DryRunOperation` code and is treated as the sentinel success. -/
def isDryRunErr (e : Option AwsError) : Bool :=
  match e with
  | some err => err.code = "DryRunOperation"
  | none => false

/-- Modelled from the spec: the EFS error classifier `isVolumeNotFound`
lives outside src/; modelled as the file-system-not-found error code. -/
def isVolumeNotFound (e : Option AwsError) : Bool :=
  match e with
  | some err => err.code = "FileSystemNotFound"
  | none => false

/-- `ebsStorage.SnapshotDelete` (awsebs.go lines 342-357): `e` is the
error of the backend `DeleteSnapshot` call (`none` on success).  A
snapshot-not-found error is swallowed; any other error except a dry-run
sentinel propagates wrapped. -/
def ebsSnapshotDelete (e : Option AwsError) : Except String Unit :=
  if isSnapNotFoundErr e then .ok ()
  else if e.isSome && !isDryRunErr e then .error "Failed to delete snapshot"
  else .ok ()

/-- `ebsStorage.VolumeDelete` (awsebs.go lines 373-387): same shape as
snapshot delete, swallowing a volume-not-found error. -/
def ebsVolumeDelete (e : Option AwsError) : Except String Unit :=
  if isVolNotFoundErr e then .ok ()
  else if e.isSome && !isDryRunErr e then .error "Failed to delete volume"
  else .ok ()

/-- `efs.VolumeDelete` (awsefs.go lines 267-276): swallows a
file-system-not-found error, otherwise returns the backend error as is. -/
def efsVolumeDelete (e : Option AwsError) : Except String Unit :=
  if isVolumeNotFound e then .ok ()
  else
    match e with
    | none => .ok ()
    | some err => .error err.code

/-- `efs.SnapshotDelete` (awsefs.go lines 349-356): issues
`DeleteRecoveryPoint` and returns its error unconditionally — no
not-found classification at all on this path. -/
def efsSnapshotDelete (e : Option AwsError) : Except String Unit :=
  match e with
  | none => .ok ()
  | some err => .error err.code

/-- The final, dereferenced content of the filters a `VolumesList` /
`SnapshotsList` describe request carries (awsebs.go lines 165-168 and
207-210).  The Go 1.12 loop

  for k, v := range tags \x7b
    fltr := ec2.Filter\x7bName: &k, Values: []*string\x7b&v\x7d\x7d
    fltrs = append(fltrs, &fltr)
  \x7d

stores in every filter the addresses of the per-loop variables `k` and
`v`, which are shared across iterations; the request is serialized after
the loop, so every filter reads the key/value of the final iteration.
The loop is modelled operationally: a shared cell overwritten at each
entry plus a count of appended pointer filters, dereferenced at the end.
`entries` lists the tag map in Go's (arbitrary) iteration order. -/
def volumesListFilters (entries : List (String × String)) : List (String × String) :=
  let final := entries.foldl (fun acc kv => (some kv, acc.2 + 1))
    ((none : Option (String × String)), (0 : Nat))
  match final with
  | (none, _) => []
  | (some kv, n) => List.replicate n kv

/-- The filter list the spec intends: one filter per tag entry, each
matching exactly that entry's key and value. -/
def volumesListFiltersIntended (entries : List (String × String)) :
    List (String × String) :=
  entries

/-- `getSnapshots` (awsebs.go lines 471-484) followed by the body of
`ebsStorage.SnapshotGet` (awsebs.go lines 359-371): `snaps` is the
describe response for the one requested ID.  `snapshotParse` already
collects the backend tags, and the loop at lines 366-368 appends the
same backend tags a second time. -/
def ebsSnapshotGet (cliRegion : String) (snaps : List EC2Snapshot) :
    Except String Snapshot :=
  if snaps.length ≠ 1 then .error "Object not found"
  else
    match snaps with
    | [] => .error "Object not found"
    | snap :: _ =>
      let ms := snapshotParse cliRegion snap
      .ok { ms with
            tags := ms.tags ++ snap.tags.map (fun t => { key := t.key, value := t.value }) }

/-- The regions of the static table (awsebs.go lines 637-735). -/
def ebsKnownRegions : List String :=
  ["ap-south-1", "eu-west-3", "eu-north-1", "eu-west-2", "eu-west-1",
   "ap-northeast-2", "ap-northeast-1", "sa-east-1", "ca-central-1",
   "ap-southeast-1", "ap-southeast-2", "eu-central-1", "us-east-1",
   "us-east-2", "us-west-1", "us-west-2"]

/-- `staticRegionToZones` (awsebs.go lines 637-735), the switch verbatim. -/
def staticRegionToZones (region : String) : Except String (List String) :=
  match region with
  | "ap-south-1" => .ok ["ap-south-1a", "ap-south-1b"]
  | "eu-west-3" => .ok ["eu-west-3a", "eu-west-3b", "eu-west-3c"]
  | "eu-north-1" => .ok ["eu-north-1a", "eu-north-1b", "eu-north-1c"]
  | "eu-west-2" => .ok ["eu-west-2a", "eu-west-2b", "eu-west-2c"]
  | "eu-west-1" => .ok ["eu-west-1a", "eu-west-1b", "eu-west-1c"]
  | "ap-northeast-2" => .ok ["ap-northeast-2a", "ap-northeast-2c"]
  | "ap-northeast-1" => .ok ["ap-northeast-1a", "ap-northeast-1c", "ap-northeast-1d"]
  | "sa-east-1" => .ok ["sa-east-1a", "sa-east-1c"]
  | "ca-central-1" => .ok ["ca-central-1a", "ca-central-1b"]
  | "ap-southeast-1" => .ok ["ap-southeast-1a", "ap-southeast-1b", "ap-southeast-1c"]
  | "ap-southeast-2" => .ok ["ap-southeast-2a", "ap-southeast-2b", "ap-southeast-2c"]
  | "eu-central-1" => .ok ["eu-central-1a", "eu-central-1b", "eu-central-1c"]
  | "us-east-1" =>
    .ok ["us-east-1a", "us-east-1b", "us-east-1c", "us-east-1d", "us-east-1e", "us-east-1f"]
  | "us-east-2" => .ok ["us-east-2a", "us-east-2b", "us-east-2c"]
  | "us-west-1" => .ok ["us-west-1a", "us-west-1b"]
  | "us-west-2" => .ok ["us-west-2a", "us-west-2b", "us-west-2c"]
  | _ => .error "cannot get availability zones for region"

/-- The fields of an EFS `FileSystemDescription` used by this layer. -/
structure EFSDescription where
  fileSystemId : String
  lifeCycleState : String
  sizeInBytes : Int
  encrypted : Bool
  creationTime : Int
deriving DecidableEq, Repr

/-- Modelled from the spec: `filterAvailable` is defined in a file of the
repository outside src/; "File systems are filtered to an 'available'
lifecycle state". -/
def filterAvailable (descs : List EFSDescription) : List EFSDescription :=
  descs.filter (fun d => d.lifeCycleState = "available")

/-- Modelled from the spec: `volumeFromEFSDescription` is defined outside
src/; it builds the `blockstorage.Volume` of a file-system description,
identified by the description's file-system ID and placed in the given
zone. -/
def volumeFromEFSDescription (desc : EFSDescription) (zone : String) : Volume :=
  { Volume.zero with
    type_ := "EFS", id := desc.fileSystemId, az := zone
    encrypted := desc.encrypted, size := desc.sizeInBytes
    creationTime := desc.creationTime }

/-- Go error wrapping `errors.Wrap(err, msg)`, rendered "msg: err". -/
def goWrap (msg err : String) : String := msg ++ ": " ++ err

/-- `efs.getFileSystemDescriptionWithID` (awsefs.go lines 454-471):
`descs` is the describe response for the requested ID; the switch is on
the number of available descriptions, and the singleton case returns
`descs.FileSystems[0]` (the inner nil case is unreachable). -/
def getFileSystemDescriptionWithID (descs : List EFSDescription) :
    Except String EFSDescription :=
  match (filterAvailable descs).length with
  | 0 => .error "Failed to find volume"
  | 1 =>
    match descs with
    | d :: _ => .ok d
    | [] => .error "Failed to find volume"
  | _ => .error "Unexpected condition, multiple filesystems with same ID"

/-- `efs.VolumeGet` (awsefs.go lines 278-284): `describe` is the
backend's describe-file-systems response table, indexed by the requested
file-system ID. -/
def efsVolumeGet (describe : String → List EFSDescription) (id zone : String) :
    Except String Volume :=
  match getFileSystemDescriptionWithID (describe id) with
  | .error e => .error (goWrap "Failed to get EFS volume" e)
  | .ok desc => .ok (volumeFromEFSDescription desc zone)

/-- Record of one `efs.VolumeCreate` call (awsefs.go lines 85-104): the
create request is sent, the backend assigns `*fd.FileSystemId`, the code
waits until THAT file system is available
(`waitUntilFileSystemAvailable(ctx, *fd.FileSystemId)`, lives outside
src/, modelled as succeeding) and then fetches `e.VolumeGet(ctx,
volume.ID, volume.Az)` — the ID of the input volume. -/
structure EfsVolumeCreateCall where
  waitedID : String
  fetchedID : String
  result : Except String Volume
deriving Repr

/-- `efs.VolumeCreate` (awsefs.go lines 85-104) given the
backend-assigned ID `newFsID` of the created file system and the
describe response table. -/
def efsVolumeCreate (volume : Volume) (newFsID : String)
    (describe : String → List EFSDescription) : EfsVolumeCreateCall :=
  { waitedID := newFsID
    fetchedID := volume.id
    result :=
      match efsVolumeGet describe volume.id volume.az with
      | .error e => .error (goWrap "Failed to get recently create EFS instance" e)
      | .ok vol => .ok vol }

/-- Go strings as character lists, for the mount-target tag codec, so
that splitting and prefix facts admit structural induction. -/
abbrev GoStr := List Char

/-- The constant `securityGroupSeperator`; per the format comment in
`parseMountTargetValue` (awsefs.go lines 210-214) the separator is the
single character "+". -/
def securityGroupSeperator : Char := '+'

/-- Modelled from the spec: the constant `mountTargetKeyPrefix` is
defined in a file of the repository outside src/.  The claims depend
only on it being the reserved non-empty key prefix, not on its text;
modelled as "kanister.io/aws-mount-target/". -/
def mountTargetKeyPrefix : GoStr := "kanister.io/aws-mount-target/".toList

/-- Go `strings.Split(s, sep)` for the single-character separator used
here: splitting the empty string yields one empty token, and each
occurrence of the separator ends a token. -/
def splitOnChar (sep : Char) : GoStr → List GoStr
  | [] => [[]]
  | c :: rest =>
    let r := splitOnChar sep rest
    if c = sep then [] :: r else (c :: r.headD []) :: r.tail

/-- The `mountTarget` struct of awsefs.go (lines 172-175). -/
structure MountTarget where
  subnetID : GoStr
  securityGroups : List GoStr
deriving DecidableEq, Repr

/-- `parseMountTargetKey` (awsefs.go lines 202-207): strips the reserved
prefix, failing when the key does not carry it. -/
def parseMountTargetKey (key : GoStr) : Except String GoStr :=
  if mountTargetKeyPrefix.isPrefixOf key then
    .ok (key.drop mountTargetKeyPrefix.length)
  else .error "Malformed string for mount target key"

/-- `parseMountTargetValue` (awsefs.go lines 209-228): split on the
separator; a single token is malformed; the head token is the subnet ID;
the security groups are `tokens[1:]` unless `tokens[1]` is empty, in
which case the group list is empty. -/
def parseMountTargetValue (value : GoStr) : Except String MountTarget :=
  let tokens := splitOnChar securityGroupSeperator value
  if tokens.length ≤ 1 then .error "Malformed string for mount target values"
  else
    let subnetID := tokens.headD []
    let sgs := if (tokens.getD 1 []).length ≠ 0 then tokens.drop 1 else []
    .ok { subnetID := subnetID, securityGroups := sgs }

/-- The loop of `filterAndGetMountTargetsFromTags` (awsefs.go lines
230-250), iterating the tag map in Go's iteration order.  The two maps
being built are modelled as association lists extended by append: the
iterated Go map has unique keys, so a map assignment during the loop
never overwrites an earlier entry. -/
def fagmtLoop (filtered : List (GoStr × GoStr)) (mts : List (GoStr × MountTarget)) :
    List (GoStr × GoStr) →
    Except String (List (GoStr × GoStr) × List (GoStr × MountTarget))
  | [] => .ok (filtered, mts)
  | (k, v) :: rest =>
    if mountTargetKeyPrefix.isPrefixOf k then
      match parseMountTargetKey k with
      | .error e => .error e
      | .ok id =>
        match parseMountTargetValue v with
        | .error e => .error e
        | .ok mt => fagmtLoop filtered (mts ++ [(id, mt)]) rest
    else fagmtLoop (filtered ++ [(k, v)]) mts rest

/-- `filterAndGetMountTargetsFromTags` (awsefs.go lines 230-250). -/
def filterAndGetMountTargetsFromTags (tags : List (GoStr × GoStr)) :
    Except String (List (GoStr × GoStr) × List (GoStr × MountTarget)) :=
  fagmtLoop [] [] tags

/-! Theorems. -/

/-- C1: every successful `SnapshotCopy` on the EBS backend returns a
snapshot whose Volume is the source snapshot's Volume, whose Size is the
source snapshot's Size and whose Region is the destination region, while
ID, tags, encryption flag and creation time come from the freshly
fetched copy; the backend-assigned placeholder volume of the copy is
never returned. -/
theorem ebs_snapshot_copy_result (fromSnap toSnap : Snapshot) (fetched : EC2Snapshot)
    (csi : CopySnapshotInput) (rs : Snapshot)
    (h : ebsSnapshotCopy fromSnap toSnap fetched = .ok (csi, rs)) :
    rs.volume = fromSnap.volume ∧ rs.size = fromSnap.size ∧ rs.region = toSnap.region ∧
    rs.id = awsStringValue fetched.snapshotId ∧
    rs.tags = fetched.tags.map (fun t => { key := t.key, value := t.value }) ∧
    rs.encrypted = awsBoolValue fetched.encrypted ∧
    rs.creationTime = awsTimeValue fetched.startTime := by
  simp only [ebsSnapshotCopy] at h
  split at h
  · simp at h
  split at h
  · simp at h
  split at h
  · simp at h
  next v heq =>
    rw [Except.ok.injEq, Prod.mk.injEq] at h
    obtain ⟨hcsi, hrs⟩ := h
    subst hrs
    exact ⟨by rw [heq], rfl, rfl, rfl, rfl, rfl, rfl⟩

/-- Example inputs for the snapshot-copy theorems: an encrypted source
snapshot in us-west-2 copied to us-east-1. -/
def c1Volume : Volume := { Volume.zero with id := "vol-src", az := "us-west-2a" }

/-- Example source snapshot for the snapshot-copy witnesses. -/
def c1From : Snapshot :=
  { id := "snap-1", tags := [], type_ := "EBS", encrypted := true, size := 100
    region := "us-west-2", volume := some c1Volume, creationTime := 5 }

/-- Example destination for the snapshot-copy witnesses: empty identity,
only the destination region supplied. -/
def c1To : Snapshot :=
  { id := "", tags := [], type_ := "", encrypted := false, size := 0
    region := "us-east-1", volume := none, creationTime := 0 }

/-- Example describe response for the freshly copied snapshot. -/
def c1Fetched : EC2Snapshot :=
  { snapshotId := some "snap-2", volumeId := some "vol-ffff", encrypted := some true
    volumeSize := some 100, startTime := some 9, state := some "completed"
    tags := [{ key := "copied", value := "yes" }] }

/-- The `CopySnapshotInput` the example copy sends. -/
def c1Csi : CopySnapshotInput :=
  { description := some "Copy of snap-1", sourceSnapshotId := some "snap-1"
    sourceRegion := some "us-west-2", destinationRegion := some "us-east-1"
    encrypted := some true
    presignedUrl := some { clientRegion := "us-west-2", sourceSnapshotId := "snap-1"
                           sourceRegion := "us-west-2", destinationRegion := "us-east-1"
                           validMinutes := 120 } }

/-- The snapshot the example copy returns. -/
def c1Rs : Snapshot :=
  { id := "snap-2", tags := [{ key := "copied", value := "yes" }], type_ := "EBS"
    encrypted := true, size := 100, region := "us-east-1"
    volume := some c1Volume, creationTime := 9 }

/-- Witness for C1 at the concrete example copy. -/
theorem ebs_snapshot_copy_result_witness :
    ebsSnapshotCopy c1From c1To c1Fetched = .ok (c1Csi, c1Rs) ∧
    (c1Rs.volume = c1From.volume ∧ c1Rs.size = c1From.size ∧ c1Rs.region = c1To.region ∧
     c1Rs.id = awsStringValue c1Fetched.snapshotId ∧
     c1Rs.tags = c1Fetched.tags.map (fun t => { key := t.key, value := t.value }) ∧
     c1Rs.encrypted = awsBoolValue c1Fetched.encrypted ∧
     c1Rs.creationTime = awsTimeValue c1Fetched.startTime) :=
  ⟨rfl, ebs_snapshot_copy_result c1From c1To c1Fetched c1Csi c1Rs rfl⟩

/-- C2: on every successful `SnapshotCopy` on the EBS backend the copy
request's `Encrypted` flag is set to true when the source snapshot is
encrypted and is left unspecified (never set to false) when it is not,
so the request can never ask for an unencrypted copy of an encrypted
source. -/
theorem ebs_snapshot_copy_encrypted_flag (fromSnap toSnap : Snapshot)
    (fetched : EC2Snapshot) (csi : CopySnapshotInput) (rs : Snapshot)
    (h : ebsSnapshotCopy fromSnap toSnap fetched = .ok (csi, rs)) :
    (fromSnap.encrypted = true → csi.encrypted = some true) ∧
    (fromSnap.encrypted = false → csi.encrypted = none) := by
  simp only [ebsSnapshotCopy] at h
  split at h
  · simp at h
  split at h
  · simp at h
  split at h
  · simp at h
  next v heq =>
    rw [Except.ok.injEq, Prod.mk.injEq] at h
    obtain ⟨hcsi, hrs⟩ := h
    subst hcsi
    constructor
    · intro henc
      simp [henc]
    · intro henc
      simp [henc]

/-- Witness for C2: the example encrypted source yields a request with
`Encrypted = true`. -/
theorem ebs_snapshot_copy_encrypted_flag_witness :
    c1From.encrypted = true ∧ c1Csi.encrypted = some true :=
  ⟨rfl, (ebs_snapshot_copy_encrypted_flag c1From c1To c1Fetched c1Csi c1Rs rfl).1 rfl⟩

/-- C3: on every successful `SnapshotCopy` on the EBS backend, the copy
request carries a presigned URL — issued by a client bound to the source
region, for the source snapshot and the destination region, valid for
120 minutes — exactly when the source and destination regions differ;
same-region copies carry none. -/
theorem ebs_snapshot_copy_presign_iff (fromSnap toSnap : Snapshot)
    (fetched : EC2Snapshot) (csi : CopySnapshotInput) (rs : Snapshot)
    (h : ebsSnapshotCopy fromSnap toSnap fetched = .ok (csi, rs)) :
    (toSnap.region ≠ fromSnap.region →
      csi.presignedUrl = some { clientRegion := fromSnap.region
                                sourceSnapshotId := fromSnap.id
                                sourceRegion := fromSnap.region
                                destinationRegion := toSnap.region
                                validMinutes := 120 }) ∧
    (toSnap.region = fromSnap.region → csi.presignedUrl = none) := by
  simp only [ebsSnapshotCopy] at h
  split at h
  · simp at h
  split at h
  · simp at h
  split at h
  · simp at h
  next v heq =>
    rw [Except.ok.injEq, Prod.mk.injEq] at h
    obtain ⟨hcsi, hrs⟩ := h
    subst hcsi
    constructor
    · intro hne
      simp [hne]
    · intro hregion
      simp [hregion]

/-- Witness for C3: the example cross-region copy carries the presigned
URL of the source-region client. -/
theorem ebs_snapshot_copy_presign_iff_witness :
    c1To.region ≠ c1From.region ∧
    c1Csi.presignedUrl = some { clientRegion := c1From.region
                                sourceSnapshotId := c1From.id
                                sourceRegion := c1From.region
                                destinationRegion := c1To.region
                                validMinutes := 120 } :=
  ⟨by decide,
   (ebs_snapshot_copy_presign_iff c1From c1To c1Fetched c1Csi c1Rs rfl).1 (by decide)⟩

/-- C4 counterexample: the EFS backend's `SnapshotDelete` returns the
backend `DeleteRecoveryPoint` error unchanged, so a "resource not found"
response for an already-deleted recovery point comes back as an error,
not success — refuting that snapshot delete is idempotent on every
backend. -/
theorem efs_snapshot_delete_notfound_counterexample :
    efsSnapshotDelete (some { code := "ResourceNotFoundException" }) =
      .error "ResourceNotFoundException" := rfl

/-- C4 (amended): EBS `SnapshotDelete`/`VolumeDelete` and EFS
`VolumeDelete` treat a backend not-found response as success (so a
second delete of the same identity succeeds there), while EFS
`SnapshotDelete` propagates every backend error, not-found included. -/
theorem delete_idempotence_amended :
    (∀ e, isSnapNotFoundErr e = true → ebsSnapshotDelete e = .ok ()) ∧
    (∀ e, isVolNotFoundErr e = true → ebsVolumeDelete e = .ok ()) ∧
    (∀ e, isVolumeNotFound e = true → efsVolumeDelete e = .ok ()) ∧
    (∀ err : AwsError, efsSnapshotDelete (some err) = .error err.code) := by
  refine ⟨fun e he => ?_, fun e he => ?_, fun e he => ?_, fun err => rfl⟩
  · simp [ebsSnapshotDelete, he]
  · simp [ebsVolumeDelete, he]
  · simp [efsVolumeDelete, he]

/-- Witness for C4 (amended): a second EBS snapshot delete, answered
with the snapshot-not-found code, succeeds. -/
theorem delete_idempotence_amended_witness :
    isSnapNotFoundErr (some { code := "InvalidSnapshot.NotFound" }) = true ∧
    ebsSnapshotDelete (some { code := "InvalidSnapshot.NotFound" }) = .ok () :=
  ⟨rfl, delete_idempotence_amended.1 (some { code := "InvalidSnapshot.NotFound" }) rfl⟩

/-- Example input for C5: a gp2 volume whose caller nevertheless supplies
an IOPS value, and a describe response for the created volume. -/
def c5Volume : Volume :=
  { Volume.zero with az := "us-west-2a", volumeType := "gp2", size := 10, iops := 100 }

/-- Example describe response used by the C5 counterexample. -/
def c5EC2Vol : EC2Volume :=
  { volumeId := some "vol-1", availabilityZone := some "us-west-2a"
    encrypted := some false, volumeType := some "gp2", size := some 10
    iops := none, createTime := some 0, state := some "available", tags := [] }

/-- C5 counterexample: supplying an IOPS value together with a subtype
that forbids it is NOT rejected with a validation error — the create
request is built with the IOPS silently dropped and the call succeeds
when the backend does. -/
theorem ebs_volume_create_iops_counterexample :
    (ebsCreateVolumeInput c5Volume).iops = none ∧ c5Volume.iops = 100 ∧
    ebsVolumeCreate c5Volume (.ok "vol-1") [c5EC2Vol] = .ok (volumeParse c5EC2Vol) :=
  ⟨rfl, rfl, rfl⟩

/-- C5 (amended): the EBS create request carries an IOPS value exactly
when the volume subtype is the provisioned-IOPS subtype io1; an IOPS
value supplied with any other subtype is silently omitted from the
request, and `VolumeCreate` performs no input validation — it fails only
when the backend create or the final get does. -/
theorem ebs_volume_create_iops_amended :
    (∀ v : Volume, (ebsCreateVolumeInput v).iops =
      if v.volumeType = volumeTypeIo1 then some v.iops else none) ∧
    (∀ (v : Volume) (volID : String) (dvo : List EC2Volume),
      ebsVolumeCreate v (.ok volID) dvo = ebsVolumeGet dvo) := by
  exact ⟨fun v => rfl, fun v volID dvo => rfl⟩

/-- C7: in `VolumesList` (and `SnapshotsList`) the loop stores the
addresses of the shared range variables in every filter, so a request
built from two tag entries carries two copies of the final entry instead
of one filter per entry; the intended construction (and the empty-map
case, where the request has no filters) are shown alongside. -/
theorem volumes_list_filters_aliasing :
    volumesListFilters [("key1", "val1"), ("key2", "val2")] =
      [("key2", "val2"), ("key2", "val2")] ∧
    volumesListFilters [] = [] ∧
    volumesListFiltersIntended [("key1", "val1"), ("key2", "val2")] =
      [("key1", "val1"), ("key2", "val2")] :=
  ⟨rfl, rfl, rfl⟩

/-- Example input of C8: a fresh create (empty input volume ID); the
backend assigns file-system ID "fs-123" and reports it available. -/
def c8Desc : EFSDescription :=
  { fileSystemId := "fs-123", lifeCycleState := "available", sizeInBytes := 1
    encrypted := false, creationTime := 0 }

/-- Backend describe table of the C8 example: only "fs-123" exists. -/
def c8Describe : String → List EFSDescription :=
  fun id => if id = "fs-123" then [c8Desc] else []

/-- C8: EFS `VolumeCreate` waits on the backend-assigned ID of the newly
created file system but then fetches the volume by the caller-supplied
input ID (`e.VolumeGet(ctx, volume.ID, volume.Az)`), so it does not
return the newly created resource: with an empty input ID the call fails
even though the new file system is available and fetchable under its
assigned ID. -/
theorem efs_volume_create_fetches_input_id :
    (∀ (v : Volume) (newFsID : String) (describe : String → List EFSDescription),
      (efsVolumeCreate v newFsID describe).waitedID = newFsID ∧
      (efsVolumeCreate v newFsID describe).fetchedID = v.id) ∧
    (efsVolumeCreate Volume.zero "fs-123" c8Describe).result =
      .error "Failed to get recently create EFS instance: Failed to get EFS volume: Failed to find volume" ∧
    efsVolumeGet c8Describe "fs-123" "" = .ok (volumeFromEFSDescription c8Desc "") :=
  ⟨fun _v _newFsID _describe => ⟨rfl, rfl⟩, rfl, rfl⟩

/-- C9: every region accepted by the static region-to-zone table yields
a non-empty zone list whose every zone name is prefixed by the region
name, and every region outside the table fails with the descriptive
"cannot get availability zones for region" error, never an empty list
with success. -/
theorem static_region_to_zones_sound :
    (∀ (r : String) (zs : List String), staticRegionToZones r = .ok zs →
      zs ≠ [] ∧ ∀ z ∈ zs, r.toList.isPrefixOf z.toList = true) ∧
    (∀ r : String, r ∉ ebsKnownRegions →
      staticRegionToZones r = .error "cannot get availability zones for region") := by
  constructor
  · intro r zs h
    unfold staticRegionToZones at h
    split at h <;>
      first
        | (injection h with h'; subst h'; exact ⟨by decide, by decide⟩)
        | exact Except.noConfusion h
  · intro r hr
    unfold staticRegionToZones
    split <;>
      first
        | rfl
        | (simp [ebsKnownRegions] at hr)

/-- Witness for C9: "us-east-1" is accepted with six zones, all prefixed
by the region name, and the unlisted "mars-north-1" is rejected. -/
theorem static_region_to_zones_sound_witness :
    (["us-east-1a", "us-east-1b", "us-east-1c", "us-east-1d", "us-east-1e",
      "us-east-1f"] ≠ ([] : List String) ∧
     ∀ z ∈ ["us-east-1a", "us-east-1b", "us-east-1c", "us-east-1d", "us-east-1e",
            "us-east-1f"], "us-east-1".toList.isPrefixOf z.toList = true) ∧
    staticRegionToZones "mars-north-1" =
      .error "cannot get availability zones for region" :=
  ⟨static_region_to_zones_sound.1 "us-east-1" _ rfl,
   static_region_to_zones_sound.2 "mars-north-1" (by decide)⟩

/-- `ebsStorage.SnapshotCreate` (awsebs.go lines 302-330) after the
backend returned the `ec2.Snapshot` `snap` and the zone of the input
volume resolved to `volRegion`: the parsed snapshot's region is replaced,
the backend tags are appended a second time on top of those already
collected by `snapshotParse`, and the volume reference is set to the
input volume. -/
def ebsSnapshotCreate (cliRegion volRegion : String) (volume : Volume)
    (snap : EC2Snapshot) : Snapshot :=
  let ms := snapshotParse cliRegion snap
  { ms with
    region := volRegion
    tags := ms.tags ++ snap.tags.map (fun t => { key := t.key, value := t.value })
    volume := some volume }

/-- Example backend snapshot of C10: a describe response carrying the
single tag key1=val1 (unique keys). -/
def c10Snap : EC2Snapshot :=
  { snapshotId := some "snap-9", volumeId := some "vol-1", encrypted := some false
    volumeSize := some 1, startTime := some 0, state := some "completed"
    tags := [{ key := "key1", value := "val1" }] }

/-- C10: `SnapshotGet` and `SnapshotCreate` append the backend tags on
top of the tags `snapshotParse` already collected, so even a backend
response with unique tag keys yields a snapshot in which every key
occurs twice — refuting that returned tag sets have unique keys. -/
theorem ebs_snapshot_tags_duplicated :
    (ebsSnapshotGet "us-west-2" [c10Snap]).map (fun s => s.tags.map KeyValue.key) =
      .ok ["key1", "key1"] ∧
    (ebsSnapshotCreate "us-west-2" "us-west-2" Volume.zero c10Snap).tags.map
      KeyValue.key = ["key1", "key1"] :=
  ⟨rfl, rfl⟩

/-- Splitting never yields an empty token list. -/
lemma splitOnChar_ne_nil (sep : Char) (s : GoStr) : splitOnChar sep s ≠ [] := by
  induction s with
  | nil => simp [splitOnChar]
  | cons c rest _ =>
    simp only [splitOnChar]
    split <;> simp

/-- A string without the separator splits into the single token itself. -/
lemma splitOnChar_no_sep (sep : Char) (s : GoStr) (h : sep ∉ s) :
    splitOnChar sep s = [s] := by
  induction s with
  | nil => rfl
  | cons c rest ih =>
    have hc : ¬c = sep := fun hh => h (hh ▸ List.mem_cons_self c rest)
    have hrest : sep ∉ rest := fun hh => h (List.mem_cons_of_mem _ hh)
    simp only [splitOnChar, ih hrest]
    simp [hc]

/-- Prepending separator-free characters extends the first token. -/
lemma splitOnChar_append (sep : Char) (s r : GoStr) (h : sep ∉ s) (t : GoStr)
    (ts : List GoStr) (hr : splitOnChar sep r = t :: ts) :
    splitOnChar sep (s ++ r) = (s ++ t) :: ts := by
  induction s with
  | nil => simpa using hr
  | cons c s' ih =>
    have hc : ¬c = sep := fun hh => h (hh ▸ List.mem_cons_self c s')
    have hs' : sep ∉ s' := fun hh => h (List.mem_cons_of_mem _ hh)
    simp only [List.cons_append, splitOnChar]
    simp [hc, ih hs']

/-- The head-and-tail form of splitting a separator-headed string. -/
lemma splitOnChar_sep_cons (sep : Char) (rest : GoStr) :
    splitOnChar sep (sep :: rest) = [] :: splitOnChar sep rest := by
  simp [splitOnChar]

/-- Every tag surviving a successful `fagmtLoop` pass: a pair already in
the accumulator, or a pair of the remaining input whose key lacks the
reserved prefix, is in the returned filtered tags. -/
lemma fagmtLoop_pass_through (tags : List (GoStr × GoStr)) :
    ∀ (filtered : List (GoStr × GoStr)) (mts : List (GoStr × MountTarget))
      (out : List (GoStr × GoStr)) (omts : List (GoStr × MountTarget)),
      fagmtLoop filtered mts tags = .ok (out, omts) →
      ∀ k v, ((k, v) ∈ filtered ∨
              ((k, v) ∈ tags ∧ mountTargetKeyPrefix.isPrefixOf k = false)) →
      (k, v) ∈ out := by
  induction tags with
  | nil =>
    intro filtered mts out omts h k v hkv
    simp only [fagmtLoop, Except.ok.injEq, Prod.mk.injEq] at h
    obtain ⟨h1, _⟩ := h
    subst h1
    rcases hkv with hmem | ⟨hmem, _⟩
    · exact hmem
    · exact absurd hmem (List.not_mem_nil _)
  | cons p rest ih =>
    obtain ⟨k', v'⟩ := p
    intro filtered mts out omts h k v hkv
    simp only [fagmtLoop] at h
    split at h
    · next hp =>
      simp only [parseMountTargetKey, if_pos hp] at h
      rcases hpv : parseMountTargetValue v' with e | mt
      · rw [hpv] at h
        exact Except.noConfusion h
      · rw [hpv] at h
        refine ih _ _ _ _ h k v ?_
        rcases hkv with hmem | ⟨hmem, hnp⟩
        · exact Or.inl hmem
        · rcases List.mem_cons.mp hmem with heq | hmem'
          · obtain ⟨hk, _⟩ := Prod.mk.injEq .. ▸ heq
            rw [Prod.mk.injEq] at heq
            rw [heq.1] at hnp
            rw [hp] at hnp
            exact absurd hnp (by simp)
          · exact Or.inr ⟨hmem', hnp⟩
    · next hp =>
      refine ih _ _ _ _ h k v ?_
      rcases hkv with hmem | ⟨hmem, hnp⟩
      · exact Or.inl (List.mem_append_left _ hmem)
      · rcases List.mem_cons.mp hmem with heq | hmem'
        · exact Or.inl (List.mem_append_right _ (heq ▸ List.mem_singleton.mpr rfl))
        · exact Or.inr ⟨hmem', hnp⟩

/-- C6 (amended): decoding mount-target tags behaves as follows: a key
without the reserved prefix passes through as an ordinary tag; a value
with no separator is malformed and fails; a value of the form "subnet+"
decodes to that subnet with an empty security-group list; and a value
with a separator but an empty head segment is accepted unconditionally,
decoding to an EMPTY subnet identifier (no non-emptiness check on the
subnet is performed). -/
theorem efs_mount_target_tag_decode :
    (∀ (tags : List (GoStr × GoStr)) (out : List (GoStr × GoStr))
       (omts : List (GoStr × MountTarget)) (k v : GoStr),
       filterAndGetMountTargetsFromTags tags = .ok (out, omts) →
       (k, v) ∈ tags → mountTargetKeyPrefix.isPrefixOf k = false → (k, v) ∈ out) ∧
    (∀ v : GoStr, securityGroupSeperator ∉ v →
       parseMountTargetValue v = .error "Malformed string for mount target values") ∧
    (∀ s : GoStr, securityGroupSeperator ∉ s →
       parseMountTargetValue (s ++ [securityGroupSeperator]) =
         .ok { subnetID := s, securityGroups := [] }) ∧
    (∀ rest : GoStr, ∃ mt, parseMountTargetValue (securityGroupSeperator :: rest) =
       .ok mt ∧ mt.subnetID = []) := by
  refine ⟨?_, ?_, ?_, ?_⟩
  · intro tags out omts k v h hmem hnp
    exact fagmtLoop_pass_through tags [] [] out omts h k v (Or.inr ⟨hmem, hnp⟩)
  · intro v hv
    simp only [parseMountTargetValue, splitOnChar_no_sep _ _ hv]
    simp
  · intro s hs
    have hsingle : splitOnChar securityGroupSeperator [securityGroupSeperator] =
        [] :: [[]] := by simp [splitOnChar]
    have hsplit := splitOnChar_append securityGroupSeperator s [securityGroupSeperator]
      hs [] [[]] hsingle
    simp only [parseMountTargetValue, hsplit]
    simp
  · intro rest
    rcases hsp : splitOnChar securityGroupSeperator rest with _ | ⟨t, ts⟩
    · exact absurd hsp (splitOnChar_ne_nil _ _)
    · have hsplit : splitOnChar securityGroupSeperator (securityGroupSeperator :: rest) =
          [] :: t :: ts := by simp [splitOnChar, hsp]
      refine ⟨{ subnetID := []
                securityGroups := if t.length ≠ 0 then ([] :: t :: ts).drop 1 else [] },
              ?_, rfl⟩
      simp only [parseMountTargetValue, hsplit]
      simp

/-- Witness for C6 (amended): "subnet-1+" decodes to subnet-1 with an
empty security-group list. -/
theorem efs_mount_target_tag_decode_witness :
    parseMountTargetValue ("subnet-1".toList ++ [securityGroupSeperator]) =
      .ok { subnetID := "subnet-1".toList, securityGroups := [] } :=
  efs_mount_target_tag_decode.2.2.1 "subnet-1".toList (by decide)

/-- C6 counterexample: the value "+sg-1" has an empty head segment before
the first separator, yet it is accepted, and the decoded subnet is empty
— refuting "accepted only if it still yields a non-empty subnet". -/
theorem parse_mount_target_value_counterexample :
    parseMountTargetValue (securityGroupSeperator :: "sg-1".toList) =
      .ok { subnetID := [], securityGroups := ["sg-1".toList] } ∧
    (splitOnChar securityGroupSeperator
      (securityGroupSeperator :: "sg-1".toList)).headD ['x'] = [] :=
  ⟨rfl, rfl⟩

end Kanister
